import Mathlib

/-!
Verification of the ledger core of `lab-transactions` (`src/Ledger/__init__.py`)
against its natural-language specification.

The store (a transactional relational database) is embedded as an explicit
`Store` value: three tables held as lists of rows, plus the counter backing the
auto-assigned `account_id` primary key.  The two mutating Python methods
`Ledger.create_account` and `Ledger.transfer_funds` are translated statement by
statement.  Because `transfer_funds` runs every statement in its own implicit
transaction and calls `connection.commit()` after each one, it is modelled as a
function returning the final *committed* store together with an optional raised
error, so partially-committed outcomes are observable.  `create_account` runs
inside `with connection.begin()`, so on any error the committed store is the
pre-call store (full rollback).
-/

namespace LabTransactions

/-- A row of the `accounts` table: store-assigned integer identifier and
display name (`accounts(account_id PRIMARY KEY auto-assigned, name TEXT)`). -/
structure AccountRow where
  account_id : Nat
  name : String
  deriving DecidableEq

/-- A row of the `balances` table
(`balances(account_id PRIMARY KEY REFERENCES accounts, balance INTEGER)`). -/
structure BalanceRow where
  account_id : Nat
  balance : Int
  deriving DecidableEq

/-- A row of the `transactions` table.  The auto-assigned `transaction_id` and
`created_at` columns are omitted: the code never reads them back. -/
structure TransactionRow where
  debit_account_id : Nat
  credit_account_id : Nat
  amount : Int
  deriving DecidableEq

/-- The committed state of the relational store backing the ledger.  `nextId`
is the counter from which the store assigns the next `account_id`. -/
structure Store where
  accounts : List AccountRow
  balances : List BalanceRow
  transactions : List TransactionRow
  nextId : Nat
  deriving DecidableEq

/-- The store of a freshly created database: empty tables. -/
def emptyStore : Store := ⟨[], [], [], 1⟩

/-- Errors raised by SQL statements or by the Python code
(`integrityError` for a violated constraint, `noneTypeError` for subscripting
the `None` returned by `.first()` on an empty result), together with the
error names of the specification's taxonomy, which the code never raises. -/
inductive PyError where
  | integrityError
  | noneTypeError
  | accountNotFound
  | insufficientFunds
  | invalidArgument
  deriving DecidableEq

/-- Whether an account with the given identifier exists in the store. -/
def accountExists (s : Store) (id : Nat) : Bool :=
  s.accounts.any (fun a => a.account_id == id)

/-- `INSERT INTO accounts (name) VALUES (:name)`.
Modelled from the spec: `accounts(account_id PRIMARY KEY auto-assigned, ...)`
(§6) — the store assigns the fresh identifier `nextId`. -/
def insertAccount (s : Store) (n : String) : Store :=
  { s with accounts := s.accounts ++ [⟨s.nextId, n⟩], nextId := s.nextId + 1 }

/-- `SELECT account_id FROM accounts WHERE name = :name` followed by
`.first()`: the first matching row in table order, if any. -/
def selectAccountIdByName (s : Store) (n : String) : Option Nat :=
  (s.accounts.find? (fun a => a.name == n)).map (fun a => a.account_id)

/-- `INSERT INTO balances VALUES (:account_id, 0)`.
Modelled from the spec: `balances(account_id PRIMARY KEY REFERENCES accounts,
balance INTEGER)` (§6; the FOREIGN KEY is also named in the `create_account`
docstring) — the insert fails with an integrity error if a balance row for the
identifier already exists (primary key) or no such account exists (foreign
key). -/
def insertBalance (s : Store) (id : Nat) (b : Int) : Except PyError Store :=
  if s.balances.any (fun r => r.account_id == id) then
    Except.error PyError.integrityError
  else if accountExists s id then
    Except.ok { s with balances := s.balances ++ [⟨id, b⟩] }
  else
    Except.error PyError.integrityError

/-- `SELECT balance FROM balances WHERE account_id = ...` followed by
`.first()`: the balance of the first matching row, if any. -/
def selectBalance (s : Store) (id : Nat) : Option Int :=
  (s.balances.find? (fun r => r.account_id == id)).map (fun r => r.balance)

/-- `UPDATE balances SET balance = ... WHERE account_id = ...`. -/
def updateBalance (s : Store) (id : Nat) (b : Int) : Store :=
  { s with balances :=
      s.balances.map (fun r => if r.account_id == id then ⟨id, b⟩ else r) }

/-- `INSERT INTO transactions (debit_account_id, credit_account_id, amount)
VALUES (...)`.  Modelled from the spec: `transactions(...,
debit_account_id REFERENCES accounts, credit_account_id REFERENCES accounts,
amount INTEGER)` (§6) — the insert fails with an integrity error when either
referenced account does not exist; the schema puts no constraint on
`amount`. -/
def insertTransaction (s : Store) (d c : Nat) (a : Int) : Except PyError Store :=
  if accountExists s d && accountExists s c then
    Except.ok { s with transactions := s.transactions ++ [⟨d, c, a⟩] }
  else
    Except.error PyError.integrityError

/-- `Ledger.get_all_account_ids` (src/Ledger/__init__.py, lines 27-34):
`SELECT account_id FROM accounts`. -/
def get_all_account_ids (s : Store) : List Nat :=
  s.accounts.map (fun a => a.account_id)

/-- `Ledger.create_account` (src/Ledger/__init__.py, lines 36-63), translated
statement by statement.  The whole body runs inside `with connection.begin()`,
so on any raised error the committed store is the pre-call store; the Python
function body has no `return` statement, so a normal return carries `none`. -/
def create_account (s : Store) (n : String) :
    Store × Except PyError (Option Nat) :=
  match selectAccountIdByName (insertAccount s n) n with
  | none => (s, Except.error PyError.noneTypeError)
  | some account_id =>
    match insertBalance (insertAccount s n) account_id 0 with
    | Except.error e => (s, Except.error e)
    | Except.ok s2 => (s2, Except.ok none)

/-- `Ledger.transfer_funds` (src/Ledger/__init__.py, lines 65-109), translated
statement by statement.  Each statement runs in its own implicit transaction
followed by `connection.commit()`, so the transaction insert is already
durable before the balance statements run; the function returns the final
committed store and the raised error, if any.  A failing statement rolls back
only itself.  If the balance `SELECT` returns no row, `results.first()[0]`
raises a `TypeError` (subscripting `None`).  The debit balance is decremented;
the credit balance is never touched (the `FIXME` at the end of the source). -/
def transfer_funds (s : Store) (debit_account_id credit_account_id : Nat)
    (amount : Int) : Store × Option PyError :=
  match insertTransaction s debit_account_id credit_account_id amount with
  | Except.error e => (s, some e)
  | Except.ok s1 =>
    match selectBalance s1 debit_account_id with
    | none => (s1, some PyError.noneTypeError)
    | some debit_account_balance =>
      (updateBalance s1 debit_account_id (debit_account_balance - amount), none)

/-- The committed stores reachable from a fresh database by any sequence of
`create_account` and `transfer_funds` calls (failing calls included: they too
leave a committed store behind). -/
inductive Reachable : Store → Prop where
  | init : Reachable emptyStore
  | create (s s' : Store) (n : String) (r : Except PyError (Option Nat)) :
      Reachable s → create_account s n = (s', r) → Reachable s'
  | transfer (s s' : Store) (d c : Nat) (a : Int) (r : Option PyError) :
      Reachable s → transfer_funds s d c a = (s', r) → Reachable s'

/-- Sum of all balances in the store. -/
def sumBalances (s : Store) : Int :=
  (s.balances.map (fun r => r.balance)).sum

/-- The SQL text `transfer_funds` submits for the transaction insert: the
source builds it with an f-string, interpolating the argument values into the
statement text. -/
def transfer_insert_sql (d c : Nat) (a : Int) : String :=
  "INSERT INTO transactions (debit_account_id, credit_account_id, amount) VALUES ("
    ++ toString d ++ ", " ++ toString c ++ ", " ++ toString a ++ ");"

/-- The SQL text `transfer_funds` submits for the debit balance read,
likewise built by f-string interpolation. -/
def transfer_select_sql (d : Nat) : String :=
  "SELECT balance FROM balances WHERE account_id = " ++ toString d ++ ";"

/-- The SQL text `transfer_funds` submits for the debit balance update,
likewise built by f-string interpolation. -/
def transfer_update_sql (b : Int) (d : Nat) : String :=
  "UPDATE balances SET balance=" ++ toString b ++ " WHERE account_id = "
    ++ toString d ++ ";"

/-- The SQL text `create_account` submits for the accounts insert: constant
text with a bound parameter. -/
def create_account_insert_sql : String :=
  "INSERT INTO accounts (name) VALUES (:name);"

/-- Every account row has a balance row with the same identifier. -/
def coCreated (s : Store) : Prop :=
  ∀ a ∈ s.accounts, ∃ b ∈ s.balances, b.account_id = a.account_id

/-- The §8 example seed: accounts A (id 1, balance 500) and B (id 2,
balance 0), no transactions yet. -/
def seedAB : Store :=
  ⟨[⟨1, "A"⟩, ⟨2, "B"⟩], [⟨1, 500⟩, ⟨2, 0⟩], [], 3⟩

/-- The store after `create_account emptyStore "a"`. -/
def S_a : Store := ⟨[⟨1, "a"⟩], [⟨1, 0⟩], [], 2⟩

/-- The store after a further `create_account _ "b"`. -/
def S_ab : Store := ⟨[⟨1, "a"⟩, ⟨2, "b"⟩], [⟨1, 0⟩, ⟨2, 0⟩], [], 3⟩

/-- The store after a further `transfer_funds _ 1 2 100`: account 1 is
overdrawn. -/
def S_neg : Store :=
  ⟨[⟨1, "a"⟩, ⟨2, "b"⟩], [⟨1, -100⟩, ⟨2, 0⟩], [⟨1, 2, 100⟩], 3⟩

/-- The store after `transfer_funds seedAB 1 2 200`. -/
def S_afterAB : Store :=
  ⟨[⟨1, "A"⟩, ⟨2, "B"⟩], [⟨1, 300⟩, ⟨2, 0⟩], [⟨1, 2, 200⟩], 3⟩

/-- A store holding a single account (id 1, balance 500). -/
def oneAccount : Store := ⟨[⟨1, "A"⟩], [⟨1, 500⟩], [], 2⟩

/-- A store already holding an account named "alice" together with its
balance row. -/
def dupNameStore : Store := ⟨[⟨1, "alice"⟩], [⟨1, 500⟩], [], 2⟩

/-- Claim C1: the claim says a transfer persists all three effects (debit,
credit, record) together or none, and the spec example expects B = 200 after
`Transfer(A, B, 200)` on seed A = 500, B = 0.  The code returns normally,
persists the debit (A = 300) and the transaction record, but never applies
the credit: B is still 0.  Only two of the three effects land. -/
theorem transfer_funds_commits_partial_effects :
    (transfer_funds seedAB 1 2 200).2 = none ∧
    selectBalance (transfer_funds seedAB 1 2 200).1 1 = some 300 ∧
    (transfer_funds seedAB 1 2 200).1.transactions.length
      = seedAB.transactions.length + 1 ∧
    selectBalance (transfer_funds seedAB 1 2 200).1 2 = some 0 ∧
    selectBalance seedAB 2 = some 0 :=
  ⟨rfl, rfl, rfl, rfl, rfl⟩

/-- Claim C2: the claim says a committed transfer conserves the sum of all
balances.  On the seed (sum 500), the committed transfer of 200 leaves
sum 300: the debit is applied but the credit never is, so funds are
destroyed. -/
theorem transfer_funds_loses_credit_sum :
    sumBalances seedAB = 500 ∧
    (transfer_funds seedAB 1 2 200).2 = none ∧
    sumBalances (transfer_funds seedAB 1 2 200).1 = 300 :=
  ⟨rfl, rfl, rfl⟩

/-- Claim C3: the claim says every committed store reachable by
`create_account` and `transfer_funds` has only non-negative balances.  The
store `S_neg`, reached by creating accounts "a" and "b" (both balance 0) and
transferring 100 from account 1, is reachable and account 1 has committed
balance -100. -/
theorem reachable_negative_balance :
    Reachable S_neg ∧ selectBalance S_neg 1 = some (-100) := by
  refine ⟨?_, rfl⟩
  exact Reachable.transfer S_ab S_neg 1 2 100 none
    (Reachable.create S_a S_ab "b" (Except.ok none)
      (Reachable.create emptyStore S_a "a" (Except.ok none)
        Reachable.init rfl) rfl) rfl

/-- Claim C4: the claim says a transfer whose amount exceeds the debit
balance fails with `InsufficientFunds` and changes nothing.  With both
accounts existing and debit balance 0, transferring 100 returns normally
(no error at all), commits the transaction row, and drives the debit
balance to -100. -/
theorem transfer_funds_allows_overdraft :
    accountExists S_ab 1 = true ∧ accountExists S_ab 2 = true ∧
    selectBalance S_ab 1 = some 0 ∧
    transfer_funds S_ab 1 2 100 = (S_neg, none) ∧
    selectBalance S_neg 1 = some (-100) ∧
    S_neg.transactions.length = 1 :=
  ⟨rfl, rfl, rfl, rfl, rfl, rfl⟩

/-- Claim C5: the claim says a non-positive amount is rejected with
`InvalidArgument` before any store interaction.  Transferring -7 returns
normally, inserts the transaction row with amount -7, and adds 7 to the
debit balance. -/
theorem transfer_funds_accepts_nonpositive_amount :
    (transfer_funds seedAB 1 2 (-7)).2 = none ∧
    (transfer_funds seedAB 1 2 (-7)).1.transactions
      = seedAB.transactions ++ [⟨1, 2, -7⟩] ∧
    selectBalance (transfer_funds seedAB 1 2 (-7)).1 1 = some 507 :=
  ⟨rfl, rfl, rfl⟩

/-- Claim C8: the claim says the statement text submitted by `transfer_funds`
is identical for all argument values, with values passed as bound
parameters.  The source builds the text with f-strings, so the statement
text for amount 100 differs from the text for amount 200. -/
theorem transfer_sql_text_varies :
    transfer_insert_sql 1 2 100 ≠ transfer_insert_sql 1 2 200 := by
  decide

/-- Claim C10: on a store that already holds an account named "alice" with
its balance row, `create_account "alice"` resolves the identifier by a name
lookup that returns the existing row first, so the balance insert targets
identifier 1, violates the balances primary key, the `begin()` block rolls
back, and the committed store is completely unchanged. -/
theorem create_account_duplicate_name_rolls_back :
    selectAccountIdByName (insertAccount dupNameStore "alice") "alice"
      = some 1 ∧
    create_account dupNameStore "alice"
      = (dupNameStore, Except.error PyError.integrityError) :=
  ⟨rfl, rfl⟩

/-- Claim C6 (counterexample): the claim says a transfer referencing a
missing account fails with `AccountNotFound`.  On a store holding only
account 1, transferring to the missing account 2 fails with the store's
integrity error (the foreign-key violation of the transactions insert),
which is not `AccountNotFound` — the code has no account-existence check of
its own and no such error kind. -/
theorem transfer_funds_missing_account_error_kind :
    transfer_funds oneAccount 1 2 10
      = (oneAccount, some PyError.integrityError) ∧
    PyError.integrityError ≠ PyError.accountNotFound :=
  ⟨rfl, by decide⟩

/-- Claim C6 (amended): when the debit or the credit account identifier does
not exist, the transactions insert violates its foreign-key constraint, the
implicit transaction is rolled back, nothing is persisted, and the error
surfaced is the store's integrity error. -/
theorem transfer_funds_missing_account_rolls_back
    (s : Store) (d c : Nat) (a : Int)
    (h : accountExists s d = false ∨ accountExists s c = false) :
    transfer_funds s d c a = (s, some PyError.integrityError) := by
  unfold transfer_funds insertTransaction
  rcases h with h | h <;> simp [h]

/-- Witness for the amended claim C6 at the empty store. -/
theorem transfer_funds_missing_account_rolls_back_witness :
    accountExists emptyStore 1 = false ∧
    transfer_funds emptyStore 1 2 5
      = (emptyStore, some PyError.integrityError) :=
  ⟨rfl, transfer_funds_missing_account_rolls_back emptyStore 1 2 5 (Or.inl rfl)⟩

/-- Claim C7 (counterexample): the claim says `create_account` returns the
new account's identifier.  On the empty store the new identifier is
`emptyStore.nextId`, but the Python function body has no `return` statement:
the call returns `None`. -/
theorem create_account_returns_no_id :
    (create_account emptyStore "a").2
      ≠ Except.ok (some emptyStore.nextId) := by
  intro h
  have h0 : (create_account emptyStore "a").2
      = Except.ok (none : Option Nat) := rfl
  rw [h0] at h
  simp at h

/-- The update written by `transfer_funds` keeps every balance row's
account identifier. -/
theorem account_id_update (d : Nat) (v : Int) (b0 : BalanceRow) :
    ((fun r : BalanceRow =>
        if r.account_id == d then ⟨d, v⟩ else r) b0).account_id
      = b0.account_id := by
  by_cases h : b0.account_id = d <;> simp [h]

/-- A successful balances insert passed its primary-key and foreign-key
checks and appended the new row. -/
theorem insertBalance_ok (s : Store) (id : Nat) (b : Int) (s2 : Store)
    (h : insertBalance s id b = Except.ok s2) :
    ¬ (s.balances.any (fun r => r.account_id == id) = true) ∧
    accountExists s id = true ∧
    s2 = { s with balances := s.balances ++ [⟨id, b⟩] } := by
  unfold insertBalance at h
  split at h
  · exact absurd h (by simp)
  · rename_i hPK
    split at h
    · rename_i hFK
      rw [Except.ok.injEq] at h
      exact ⟨hPK, hFK, h.symm⟩
    · exact absurd h (by simp)

/-- A `create_account` call that raises an error leaves the committed store
unchanged (the `begin()` block rolls back). -/
theorem create_account_error (s : Store) (n : String) (s' : Store)
    (e : PyError) (h : create_account s n = (s', Except.error e)) :
    s' = s := by
  unfold create_account at h
  split at h
  · rw [Prod.mk.injEq] at h
    exact h.1.symm
  · split at h
    · rw [Prod.mk.injEq] at h
      exact h.1.symm
    · exact absurd h (by simp)

/-- Characterization of a successful `create_account` call: the name lookup
resolved some identifier, that identifier had no balance row in the
transaction's view, it names an existing account, the returned value is
`none`, and the committed store is the account insert plus the zero balance
row. -/
theorem create_account_ok (s : Store) (n : String) (s' : Store)
    (v : Option Nat) (h : create_account s n = (s', Except.ok v)) :
    ∃ account_id,
      selectAccountIdByName (insertAccount s n) n = some account_id ∧
      ¬ ((insertAccount s n).balances.any
          (fun r => r.account_id == account_id) = true) ∧
      accountExists (insertAccount s n) account_id = true ∧
      v = none ∧
      s' = { insertAccount s n with
              balances := (insertAccount s n).balances ++ [⟨account_id, 0⟩] } := by
  unfold create_account at h
  split at h
  · exact absurd h (by simp)
  · rename_i account_id hfind
    split at h
    · exact absurd h (by simp)
    · rename_i s2 hins
      rw [Prod.mk.injEq, Except.ok.injEq] at h
      obtain ⟨hs2, hv⟩ := h
      obtain ⟨hPK, hFK, hrec⟩ := insertBalance_ok _ _ _ _ hins
      exact ⟨account_id, hfind, hPK, hFK, hv.symm, hs2.symm.trans hrec⟩

/-- A successful transactions insert passed both foreign-key checks and
appended the new row. -/
theorem insertTransaction_ok (s : Store) (d c : Nat) (a : Int) (s1 : Store)
    (h : insertTransaction s d c a = Except.ok s1) :
    accountExists s d = true ∧ accountExists s c = true ∧
    s1 = { s with transactions := s.transactions ++ [⟨d, c, a⟩] } := by
  unfold insertTransaction at h
  split at h
  · rename_i hcond
    rw [Bool.and_eq_true] at hcond
    rw [Except.ok.injEq] at h
    exact ⟨hcond.1, hcond.2, h.symm⟩
  · exact absurd h (by simp)

/-- Whatever `transfer_funds` returns, the committed store keeps the
accounts table, and its balances are either untouched or rewritten only on
the debit identifier. -/
theorem transfer_funds_shape (s : Store) (d c : Nat) (a : Int) (s' : Store)
    (r : Option PyError) (h : transfer_funds s d c a = (s', r)) :
    s'.accounts = s.accounts ∧
    (s'.balances = s.balances ∨
      ∃ v, s'.balances = s.balances.map
        (fun row => if row.account_id == d then ⟨d, v⟩ else row)) := by
  unfold transfer_funds at h
  split at h
  · rw [Prod.mk.injEq] at h
    obtain ⟨h1, -⟩ := h
    subst h1
    exact ⟨rfl, Or.inl rfl⟩
  · rename_i s1 hins
    obtain ⟨-, -, hs1⟩ := insertTransaction_ok s d c a s1 hins
    subst hs1
    split at h
    · rw [Prod.mk.injEq] at h
      obtain ⟨h1, -⟩ := h
      subst h1
      exact ⟨rfl, Or.inl rfl⟩
    · rename_i b hsel
      rw [Prod.mk.injEq] at h
      obtain ⟨h1, -⟩ := h
      subst h1
      exact ⟨rfl, Or.inr ⟨b - a, rfl⟩⟩

/-- A successful `create_account` preserves the account-has-balance
invariant. -/
theorem coCreated_create (s s' : Store) (n : String)
    (r : Except PyError (Option Nat))
    (heq : create_account s n = (s', r)) (hcc : coCreated s) :
    coCreated s' := by
  cases r with
  | error e =>
    have h1 := create_account_error s n s' e heq
    subst h1
    exact hcc
  | ok v =>
    obtain ⟨account_id, hfind, hPK, hFK, hv, hs'⟩ :=
      create_account_ok s n s' v heq
    subst hs'
    intro a1 ha1
    have ha1' : a1 ∈ s.accounts ++ [(⟨s.nextId, n⟩ : AccountRow)] := by
      simpa [insertAccount] using ha1
    rcases List.mem_append.1 ha1' with ha | ha
    · obtain ⟨b0, hb0, hid0⟩ := hcc a1 ha
      refine ⟨b0, ?_, hid0⟩
      simp only [insertAccount, List.mem_append]
      exact Or.inl hb0
    · have hnew : a1 = ⟨s.nextId, n⟩ := by simpa using ha
      subst hnew
      refine ⟨⟨account_id, 0⟩, ?_, ?_⟩
      · simp [insertAccount]
      · -- the looked-up identifier is the fresh one: an older account with
        -- this name would have a balance row, tripping the primary-key
        -- check recorded in hPK
        show account_id = s.nextId
        unfold selectAccountIdByName at hfind
        rw [Option.map_eq_some'] at hfind
        obtain ⟨a0, hfind0, hida0⟩ := hfind
        have ha0mem := List.mem_of_find?_eq_some hfind0
        have ha0mem' : a0 ∈ s.accounts ++ [(⟨s.nextId, n⟩ : AccountRow)] := by
          simpa [insertAccount] using ha0mem
        rcases List.mem_append.1 ha0mem' with h0 | h0
        · exfalso
          obtain ⟨b0, hb0, hid0⟩ := hcc a0 h0
          apply hPK
          simp only [insertAccount, List.any_eq_true]
          exact ⟨b0, hb0, by rw [hid0, hida0]; exact beq_self_eq_true _⟩
        · have ha0 : a0 = ⟨s.nextId, n⟩ := by simpa using h0
          rw [← hida0, ha0]

/-- `transfer_funds` preserves the account-has-balance invariant. -/
theorem coCreated_transfer (s s' : Store) (d c : Nat) (a : Int)
    (r : Option PyError)
    (heq : transfer_funds s d c a = (s', r)) (hcc : coCreated s) :
    coCreated s' := by
  obtain ⟨hacc, hbal⟩ := transfer_funds_shape s d c a s' r heq
  intro a1 ha1
  rw [hacc] at ha1
  obtain ⟨b0, hb0, hid0⟩ := hcc a1 ha1
  rcases hbal with hbal | ⟨v, hbal⟩
  · exact ⟨b0, by rw [hbal]; exact hb0, hid0⟩
  · refine ⟨_, by rw [hbal]; exact List.mem_map_of_mem _ hb0, ?_⟩
    rw [account_id_update]
    exact hid0

/-- Claim C7 (amended): a successful `create_account` call inserts the
account row and then a balance row with amount 0 as one atomic unit of work,
but returns `None` rather than the new identifier; and every committed store
reachable from the fresh database pairs each account row with a balance
row. -/
theorem create_account_amended_behavior :
    (∀ (s : Store) (n : String) (s' : Store) (v : Option Nat),
        create_account s n = (s', Except.ok v) →
        v = none ∧
        s'.accounts = s.accounts ++ [⟨s.nextId, n⟩] ∧
        ∃ id, accountExists s' id = true ∧
          s'.balances = s.balances ++ [⟨id, 0⟩]) ∧
    (∀ s : Store, Reachable s → coCreated s) := by
  constructor
  · intro s n s' v h
    obtain ⟨account_id, hfind, hPK, hFK, hv, hs'⟩ :=
      create_account_ok s n s' v h
    subst hs'
    refine ⟨hv, by simp [insertAccount], account_id, hFK, by simp [insertAccount]⟩
  · intro s hs
    induction hs with
    | init =>
      intro a ha
      simp [emptyStore] at ha
    | create s s' n r hstep heq ih =>
      exact coCreated_create s s' n r heq ih
    | transfer s s' d c a r hstep heq ih =>
      exact coCreated_transfer s s' d c a r heq ih

/-- Witness for the amended claim C7: the success path at the empty store
and the invariant at the reachable empty store. -/
theorem create_account_amended_behavior_witness :
    ((none : Option Nat) = none ∧
      S_a.accounts = emptyStore.accounts ++ [⟨emptyStore.nextId, "a"⟩] ∧
      ∃ id, accountExists S_a id = true ∧
        S_a.balances = emptyStore.balances ++ [⟨id, 0⟩]) ∧
    coCreated emptyStore :=
  ⟨create_account_amended_behavior.1 emptyStore "a" S_a none rfl,
   create_account_amended_behavior.2 emptyStore Reachable.init⟩

/-- A balance-row update targeting account `d` leaves the first row of any
other account `c` unchanged. -/
theorem find_update_other (l : List BalanceRow) (d c : Nat) (v : Int)
    (hne : c ≠ d) :
    (l.map (fun r => if r.account_id == d then ⟨d, v⟩ else r)).find?
        (fun r => r.account_id == c)
      = l.find? (fun r => r.account_id == c) := by
  induction l with
  | nil => rfl
  | cons r t ih =>
    simp only [List.map_cons]
    by_cases hd : r.account_id = d
    · have h1 : (if r.account_id == d then (⟨d, v⟩ : BalanceRow) else r)
          = ⟨d, v⟩ := by simp [hd]
      rw [h1]
      have h2 : ¬ ((((⟨d, v⟩ : BalanceRow).account_id == c)) = true) := by
        simpa using fun hh => hne hh.symm
      have h3 : ¬ (((r.account_id == c)) = true) := by
        simp only [hd]
        simpa using fun hh => hne hh.symm
      rw [List.find?_cons_of_neg (p := fun r : BalanceRow => r.account_id == c) _ h2,
        List.find?_cons_of_neg (p := fun r : BalanceRow => r.account_id == c) _ h3]
      exact ih
    · have h1 : (if r.account_id == d then (⟨d, v⟩ : BalanceRow) else r)
          = r := by simp [hd]
      rw [h1]
      by_cases hc : r.account_id = c
      · rw [List.find?_cons_of_pos (p := fun r : BalanceRow => r.account_id == c) _
            (by simp [hc]),
          List.find?_cons_of_pos (p := fun r : BalanceRow => r.account_id == c) _
            (by simp [hc])]
      · rw [List.find?_cons_of_neg (p := fun r : BalanceRow => r.account_id == c) _
            (by simpa using hc),
          List.find?_cons_of_neg (p := fun r : BalanceRow => r.account_id == c) _
            (by simpa using hc)]
        exact ih

/-- Claim C9: a `transfer_funds` call with distinct credit and debit
identifiers that returns normally leaves the credit account's balance row
exactly unchanged — the code only appends to `transactions` and updates the
debit row, and never touches the credit balance. -/
theorem transfer_funds_credit_frame
    (s : Store) (d c : Nat) (a : Int) (s' : Store)
    (hne : c ≠ d)
    (h : transfer_funds s d c a = (s', none)) :
    s'.balances.find? (fun r => r.account_id == c)
      = s.balances.find? (fun r => r.account_id == c) := by
  unfold transfer_funds at h
  split at h
  · exact absurd h (by simp)
  · rename_i s1 hins
    obtain ⟨-, -, hs1⟩ := insertTransaction_ok s d c a s1 hins
    subst hs1
    split at h
    · exact absurd h (by simp)
    · rename_i b hsel
      rw [Prod.mk.injEq] at h
      obtain ⟨h1, -⟩ := h
      subst h1
      simp only [updateBalance]
      exact find_update_other s.balances d c _ hne

/-- Witness for claim C9 on the §8 example seed. -/
theorem transfer_funds_credit_frame_witness :
    (2 ≠ 1) ∧
    S_afterAB.balances.find? (fun r => r.account_id == 2)
      = seedAB.balances.find? (fun r => r.account_id == 2) :=
  ⟨by decide,
   transfer_funds_credit_frame seedAB 1 2 200 S_afterAB (by decide) rfl⟩

end LabTransactions
